import Mathlib

/-!
Verification of the asynchronous video-summarization pipeline
(`main.py`, `video_processor.py`, `audio_processor.py`, `ai_agents.py`,
`config.py`) against its natural-language specification.

Python strings are embedded as `List Char` (named `Str`); Python floats that
only flow through comparisons or display are embedded as `ℚ`; fallible calls
are embedded as `Except Str`-valued oracles supplied to the orchestrator;
`datetime` values are embedded as a record of calendar fields.
-/

/-- Embedding of a Python `str`. -/
abbrev Str := List Char

/-- Embedding of a Python `datetime.datetime` value (date and time of day,
with microsecond resolution, as used by `datetime.now()`). -/
structure DateTime where
  year : Nat
  month : Nat
  day : Nat
  hour : Nat
  minute : Nat
  second : Nat
  microsecond : Nat
deriving DecidableEq, Repr

/-- Field bounds every real `datetime` satisfies (loose bounds, enough for
the formatting arguments below to stay within their padded widths). -/
def DateTime.Valid (t : DateTime) : Prop :=
  t.year < 10000 ∧ t.month < 100 ∧ t.day < 100 ∧ t.hour < 100 ∧
    t.minute < 100 ∧ t.second < 100 ∧ t.microsecond < 1000000

instance (t : DateTime) : Decidable t.Valid := by
  unfold DateTime.Valid; infer_instance

/-- Two decimal digits, zero padded: the `%m`, `%d`, `%H`, `%M`, `%S`
directives of `strftime`. -/
def pad2 (n : Nat) : Str :=
  [Nat.digitChar (n / 10 % 10), Nat.digitChar (n % 10)]

/-- Four decimal digits, zero padded: the `%Y` directive of `strftime`. -/
def pad4 (n : Nat) : Str :=
  [Nat.digitChar (n / 1000 % 10), Nat.digitChar (n / 100 % 10),
   Nat.digitChar (n / 10 % 10), Nat.digitChar (n % 10)]

/-- Six decimal digits, zero padded: the `%f` directive of `strftime`. -/
def pad6 (n : Nat) : Str :=
  [Nat.digitChar (n / 100000 % 10), Nat.digitChar (n / 10000 % 10),
   Nat.digitChar (n / 1000 % 10), Nat.digitChar (n / 100 % 10),
   Nat.digitChar (n / 10 % 10), Nat.digitChar (n % 10)]

/-- `datetime.strftime('%Y%m%d_%H%M%S_%f')`, the timestamp part of every
task identifier generated in `main.py`. -/
def strftimeId (t : DateTime) : Str :=
  pad4 t.year ++ pad2 t.month ++ pad2 t.day ++ ['_'] ++
    pad2 t.hour ++ pad2 t.minute ++ pad2 t.second ++ ['_'] ++ pad6 t.microsecond

/-- The task identifier built by the `/process-video` endpoint
(`main.py` line 109): `f"video_{datetime.now().strftime('%Y%m%d_%H%M%S_%f')}"`.
The identifier depends only on the timestamp, not on the request payload. -/
def videoTaskId (t : DateTime) : Str :=
  "video_".data ++ strftimeId t

/-- The identifier returned for a `/process-video` submission with request
payload `req` made at time `t`: `main.py` computes it from the clock alone. -/
def submissionTaskId (_req : Str) (t : DateTime) : Str :=
  videoTaskId t

/-- `datetime.isoformat()`: `YYYY-MM-DDTHH:MM:SS` followed by `.ffffff`
exactly when the microsecond field is nonzero. -/
def isoformat (t : DateTime) : Str :=
  pad4 t.year ++ ['-'] ++ pad2 t.month ++ ['-'] ++ pad2 t.day ++ ['T'] ++
    pad2 t.hour ++ [':'] ++ pad2 t.minute ++ [':'] ++ pad2 t.second ++
      (if t.microsecond = 0 then [] else ['.'] ++ pad6 t.microsecond)

/-- Lowercasing of a Python string (`str.lower` on ASCII format names). -/
def lowerStr (s : Str) : Str := s.map Char.toLower

/-- A per-video result dictionary as assembled by
`VideoProcessor.process_video` (the fields the task registry stores). -/
structure VideoResult where
  videoPath : Str
  transcript : Str
  summary : Str
deriving DecidableEq, Repr

/-- One entry of the in-memory task registry `processing_tasks`
(`main.py` lines 112-118). -/
structure TaskRecord where
  status : Str
  results : List VideoResult
  errors : List Str
  startedAt : Str
  completedAt : Option Str
deriving DecidableEq, Repr

/-- The record inserted at submission time (`main.py` lines 112-118). -/
def initTask (start : DateTime) : TaskRecord :=
  { status := "processing".data
    results := []
    errors := []
    startedAt := isoformat start
    completedAt := none }

/-- The success update performed by `process_video_task`
(`main.py` lines 316-318). -/
def completeVideoTask (rec : TaskRecord) (r : VideoResult) (t : DateTime) :
    TaskRecord :=
  { rec with
    status := "completed".data
    results := [r]
    completedAt := some (isoformat t) }

/-- The failure update performed by `process_video_task`
(`main.py` lines 330-332): status `error`, the stringified cause as the
sole error entry, completion stamped; the results list is left untouched. -/
def errorVideoTask (rec : TaskRecord) (msg : Str) (t : DateTime) :
    TaskRecord :=
  { rec with
    status := "error".data
    errors := [msg]
    completedAt := some (isoformat t) }

/-- The success update performed by `process_folder_task`
(`main.py` lines 347-349). -/
def completeFolderTask (rec : TaskRecord) (rs : List VideoResult)
    (t : DateTime) : TaskRecord :=
  { rec with
    status := "completed".data
    results := rs
    completedAt := some (isoformat t) }

/-- Task records reachable in the registry: the initial `processing` record,
or that record after the single terminal update a background worker applies
(`process_video_task` / `process_folder_task`, success or failure branch). -/
inductive ReachableTask : TaskRecord → Prop
  | init (start : DateTime) : ReachableTask (initTask start)
  | videoDone (start : DateTime) (r : VideoResult) (t : DateTime) :
      ReachableTask (completeVideoTask (initTask start) r t)
  | videoFailed (start : DateTime) (msg : Str) (t : DateTime) :
      ReachableTask (errorVideoTask (initTask start) msg t)
  | folderDone (start : DateTime) (rs : List VideoResult) (t : DateTime) :
      ReachableTask (completeFolderTask (initTask start) rs t)
  | folderFailed (start : DateTime) (msg : Str) (t : DateTime) :
      ReachableTask (errorVideoTask (initTask start) msg t)

/-- Python truthiness of `x or y` for `x` an optional string
(`task["completed_at"] or datetime.now().isoformat()` in `main.py` 192):
`None` and the empty string are falsy. -/
def pyOrStr (x : Option Str) (y : Str) : Str :=
  match x with
  | none => y
  | some s => if s = [] then y else s

/-- The response body assembled by `get_task_status` (`main.py` 187-193). -/
structure ProcessingResult where
  taskId : Str
  status : Str
  results : List VideoResult
  errors : List Str
  completedAt : Str
deriving DecidableEq, Repr

/-- `get_task_status` (`main.py` lines 179-193): 404 when the identifier is
unknown, otherwise a read-only projection of the record in which an absent
completion timestamp is replaced by the current time. The registry is not
written to. -/
def getTaskStatus (store : Str → Option TaskRecord) (taskId : Str)
    (now : DateTime) : Except Nat ProcessingResult :=
  match store taskId with
  | none => .error 404
  | some task =>
      .ok { taskId := taskId
            status := task.status
            results := task.results
            errors := task.errors
            completedAt := pyOrStr task.completedAt (isoformat now) }

/-! ## Summarization chunking (`GoogleAIAgent.generate_summary`,
`ai_agents.py` lines 179-243) -/

/-- `max_chunk_length = 30000` characters (`ai_agents.py` line 183). -/
def maxChunkLength : Nat := 30000

/-- The chunk list built in `ai_agents.py` lines 184-193: a transcript no
longer than the threshold stays whole; a longer one is sliced into
consecutive fixed-size pieces `transcript[i:i+30000]` for
`i in range(0, len, 30000)` (the last piece may be shorter). -/
def sliceChunks (s : Str) : List Str :=
  if _h : s.length ≤ maxChunkLength then [s]
  else s.take maxChunkLength :: sliceChunks (s.drop maxChunkLength)
termination_by s.length
decreasing_by
  simp only [List.length_drop, maxChunkLength] at *
  omega

/-- Per-chunk and combining `generate_content` calls issued by
`GoogleAIAgent.generate_summary`: one call per chunk in the loop
(lines 197-218), plus one final combining call exactly when more than one
chunk summary was produced (lines 221-237). -/
structure SummaryCalls where
  perChunk : Nat
  combining : Nat
deriving DecidableEq, Repr

/-- Call counts of one `generate_summary` invocation on `transcript`. -/
def generateSummaryCalls (transcript : Str) : SummaryCalls :=
  let chunks := sliceChunks transcript
  { perChunk := chunks.length
    combining := if chunks.length > 1 then 1 else 0 }

/-- The value returned by `generate_summary`, with the backend
`generate_content` call embedded as the oracle `gen`: each chunk is
summarized through its positional prompt, and when several summaries exist
one combining call produces the final text, otherwise `summaries[0]` is
returned directly. Prompt assembly is embedded as the oracle arguments
(chunk text, position, total). -/
def generateSummary (gen : Str → Nat → Nat → Str) (combine : List Str → Str)
    (transcript : Str) : Str :=
  let chunks := sliceChunks transcript
  let summaries := chunks.enum.map fun p => gen p.2 p.1 chunks.length
  if summaries.length > 1 then combine summaries
  else summaries.headD []

/-- Number of chunks produced by the slicing loop: the ceiling of
`length / 30000`, for nonempty transcripts. -/
theorem sliceChunks_length (s : Str) (h : 0 < s.length) :
    (sliceChunks s).length = (s.length + maxChunkLength - 1) / maxChunkLength := by
  induction s using sliceChunks.induct with
  | case1 s h1 =>
      rw [sliceChunks]
      simp only [h1, dite_true, List.length_singleton]
      simp only [maxChunkLength] at *
      omega
  | case2 s h1 ih =>
      rw [sliceChunks]
      simp only [h1, dite_false, List.length_cons]
      rw [ih]
      · simp only [List.length_drop, maxChunkLength] at *
        omega
      · simp only [List.length_drop, maxChunkLength] at *
        omega

/-- C2: for every transcript of character length L > 0 and the configured
chunk threshold T = 30000, `generate_summary` issues exactly ⌈L/T⌉ per-chunk
summarization calls, and issues one combining call if and only if
⌈L/T⌉ > 1 (a single chunk's summary is returned directly, without a
combining call). -/
theorem c2_chunking_law (transcript : Str) (h : 0 < transcript.length) :
    (generateSummaryCalls transcript).perChunk =
        (transcript.length + maxChunkLength - 1) / maxChunkLength ∧
      ((generateSummaryCalls transcript).combining = 1 ↔
        (transcript.length + maxChunkLength - 1) / maxChunkLength > 1) ∧
      ((generateSummaryCalls transcript).combining = 0 ↔
        ¬ (transcript.length + maxChunkLength - 1) / maxChunkLength > 1) := by
  have hl := sliceChunks_length transcript h
  unfold generateSummaryCalls
  refine ⟨hl, ?_, ?_⟩ <;>
    simp only [gt_iff_lt, ← hl] <;>
    by_cases hc : 1 < (sliceChunks transcript).length <;>
    simp [hc]

/-- Concrete instance of the chunking law: a one-character transcript yields
one per-chunk call and no combining call. -/
theorem c2_chunking_law_witness :
    (0:Nat) < ("a".data : Str).length ∧
      (generateSummaryCalls "a".data).perChunk =
        (("a".data : Str).length + maxChunkLength - 1) / maxChunkLength ∧
      ((generateSummaryCalls "a".data).combining = 1 ↔
        (("a".data : Str).length + maxChunkLength - 1) / maxChunkLength > 1) ∧
      ((generateSummaryCalls "a".data).combining = 0 ↔
        ¬ (("a".data : Str).length + maxChunkLength - 1) / maxChunkLength > 1) :=
  ⟨by decide, c2_chunking_law "a".data (by decide)⟩

/-! ## Task-status lookup (`get_task_status`, `main.py` lines 179-193) -/

/-- `datetime.isoformat()` never renders the empty string. -/
theorem isoformat_ne_nil (t : DateTime) : isoformat t ≠ [] := by
  simp [isoformat, pad4]

/-- A reachable record still in the `processing` state is the submission-time
record: its completion timestamp is absent. -/
theorem reachable_processing_completedAt_none {rec : TaskRecord}
    (h : ReachableTask rec) (hp : rec.status = "processing".data) :
    rec.completedAt = none := by
  cases h with
  | init start => rfl
  | videoDone start r t =>
      simp only [completeVideoTask, initTask] at hp
      exact absurd hp (by decide)
  | videoFailed start msg t =>
      simp only [errorVideoTask, initTask] at hp
      exact absurd hp (by decide)
  | folderDone start rs t =>
      simp only [completeFolderTask, initTask] at hp
      exact absurd hp (by decide)
  | folderFailed start msg t =>
      simp only [errorVideoTask, initTask] at hp
      exact absurd hp (by decide)

/-- A reachable record in a terminal state carries the worker's completion
timestamp: `completed_at` is a (nonempty) rendered time. -/
theorem reachable_terminal_completedAt {rec : TaskRecord}
    (h : ReachableTask rec)
    (ht : rec.status = "completed".data ∨ rec.status = "error".data) :
    ∃ t, rec.completedAt = some (isoformat t) := by
  cases h with
  | init start =>
      rcases ht with hp | hp <;>
        · simp only [initTask] at hp
          exact absurd hp (by decide)
  | videoDone start r t => exact ⟨t, rfl⟩
  | videoFailed start msg t => exact ⟨t, rfl⟩
  | folderDone start rs t => exact ⟨t, rfl⟩
  | folderFailed start msg t => exact ⟨t, rfl⟩

/-- C5: for a task whose stored record is terminal (`completed` or `error`),
`get_task_status` returns the same response at every polling time — the
stored `completed_at` is substituted for neither poll, and the lookup never
mutates the record (it is a pure read of the registry). -/
theorem c5_terminal_get_idempotent (store : Str → Option TaskRecord)
    (taskId : Str) (rec : TaskRecord) (hstore : store taskId = some rec)
    (hreach : ReachableTask rec)
    (hterm : rec.status = "completed".data ∨ rec.status = "error".data)
    (n₁ n₂ : DateTime) :
    getTaskStatus store taskId n₁ = getTaskStatus store taskId n₂ := by
  obtain ⟨t, hc⟩ := reachable_terminal_completedAt hreach hterm
  simp [getTaskStatus, hstore, pyOrStr, hc, isoformat_ne_nil t]

/-- Concrete instance of C5: a completed task polled at two different times
yields identical responses. -/
theorem c5_terminal_get_idempotent_witness :
    getTaskStatus
        (fun i => if i = videoTaskId ⟨2024, 1, 2, 3, 4, 5, 6⟩ then
          some (completeVideoTask (initTask ⟨2024, 1, 2, 3, 4, 5, 6⟩)
            ⟨"v.mp4".data, "t".data, "s".data⟩ ⟨2024, 1, 2, 3, 9, 9, 9⟩)
          else none)
        (videoTaskId ⟨2024, 1, 2, 3, 4, 5, 6⟩) ⟨2025, 6, 7, 8, 9, 10, 11⟩ =
      getTaskStatus
        (fun i => if i = videoTaskId ⟨2024, 1, 2, 3, 4, 5, 6⟩ then
          some (completeVideoTask (initTask ⟨2024, 1, 2, 3, 4, 5, 6⟩)
            ⟨"v.mp4".data, "t".data, "s".data⟩ ⟨2024, 1, 2, 3, 9, 9, 9⟩)
          else none)
        (videoTaskId ⟨2024, 1, 2, 3, 4, 5, 6⟩) ⟨2026, 1, 1, 1, 1, 1, 1⟩ :=
  c5_terminal_get_idempotent _ _
    (completeVideoTask (initTask ⟨2024, 1, 2, 3, 4, 5, 6⟩)
      ⟨"v.mp4".data, "t".data, "s".data⟩ ⟨2024, 1, 2, 3, 9, 9, 9⟩)
    (by simp) (ReachableTask.videoDone _ _ _) (Or.inl rfl) _ _

/-- C10: for a stored task still in the `processing` state, `get_task_status`
never reports an absent completion timestamp: it substitutes the current
time into the `completed_at` field, so polling the same unchanged record at
two different times can return two different responses. -/
theorem c10_processing_substitutes_now (store : Str → Option TaskRecord)
    (taskId : Str) (rec : TaskRecord) (hstore : store taskId = some rec)
    (hreach : ReachableTask rec) (hproc : rec.status = "processing".data) :
    (∀ now, getTaskStatus store taskId now =
      .ok { taskId := taskId, status := rec.status, results := rec.results,
            errors := rec.errors, completedAt := isoformat now }) ∧
    ∃ n₁ n₂, getTaskStatus store taskId n₁ ≠ getTaskStatus store taskId n₂ := by
  have hc := reachable_processing_completedAt_none hreach hproc
  have hok : ∀ now, getTaskStatus store taskId now =
      .ok { taskId := taskId, status := rec.status, results := rec.results,
            errors := rec.errors, completedAt := isoformat now } := by
    intro now
    simp [getTaskStatus, hstore, pyOrStr, hc]
  refine ⟨hok, ⟨2024, 1, 1, 0, 0, 0, 0⟩, ⟨2025, 1, 1, 0, 0, 0, 0⟩, ?_⟩
  rw [hok ⟨2024, 1, 1, 0, 0, 0, 0⟩, hok ⟨2025, 1, 1, 0, 0, 0, 0⟩]
  intro h
  rw [Except.ok.injEq, ProcessingResult.mk.injEq] at h
  exact absurd h.2.2.2.2 (by decide)

/-- Concrete instance of C10: a freshly submitted (`processing`) task polled
once returns the poll time as its `completed_at` and two polls can differ. -/
theorem c10_processing_substitutes_now_witness :
    (∀ now, getTaskStatus
        (fun i => if i = "t1".data then some (initTask ⟨2024, 1, 2, 3, 4, 5, 6⟩)
          else none) "t1".data now =
      .ok { taskId := "t1".data,
            status := (initTask ⟨2024, 1, 2, 3, 4, 5, 6⟩).status,
            results := (initTask ⟨2024, 1, 2, 3, 4, 5, 6⟩).results,
            errors := (initTask ⟨2024, 1, 2, 3, 4, 5, 6⟩).errors,
            completedAt := isoformat now }) ∧
    ∃ n₁ n₂, getTaskStatus
        (fun i => if i = "t1".data then some (initTask ⟨2024, 1, 2, 3, 4, 5, 6⟩)
          else none) "t1".data n₁ ≠
      getTaskStatus
        (fun i => if i = "t1".data then some (initTask ⟨2024, 1, 2, 3, 4, 5, 6⟩)
          else none) "t1".data n₂ :=
  c10_processing_substitutes_now _ _ (initTask ⟨2024, 1, 2, 3, 4, 5, 6⟩)
    (by simp) (ReachableTask.init _) rfl

/-! ## Single-video orchestrator (`VideoProcessor.process_video`,
`video_processor.py` lines 22-76) -/

/-- The pipeline stages of `process_video`, in source order. -/
inductive Stage
  | existenceCheck
  | metadata
  | sizeCheck
  | formatCheck
  | audioExtract
  | transcribe
  | summarize
  | persist
deriving DecidableEq, Repr

/-- The full stage sequence of `process_video` (lines 27-65). -/
def canonicalStages : List Stage :=
  [.existenceCheck, .metadata, .sizeCheck, .formatCheck,
   .audioExtract, .transcribe, .summarize, .persist]

/-- The dictionary returned by `AudioProcessor.get_video_info`
(`audio_processor.py` lines 90-109).  Floating-point duration, fps and
size are embedded as rationals. -/
structure VideoInfo where
  duration : ℚ
  fps : ℚ
  width : Nat
  height : Nat
  format : Str
  size_mb : ℚ
  hasAudio : Bool
deriving DecidableEq, Repr

/-- The environment one `process_video(video_path)` call runs against:
configuration values read from `Config`, and the outcomes of the
external effects (filesystem test, decoder, extraction, transcription,
summarization backend, result write), each embedded as an oracle.
`sizeRendered`/`maxRendered` embed the `:.2f`/`str(int)` renderings used
inside the size-limit message. -/
structure PipelineEnv where
  videoPath : Str
  pathExists : Bool
  infoResult : Except Str VideoInfo
  maxVideoSizeMB : Nat
  supportedFormats : List Str
  extractResult : Except Str Str
  transcribeResult : Except Str Str
  summarizeResult : Except Str Str
  saveResult : Except Str Str
  sizeRendered : Str
  maxRendered : Str

/-- `f"Video no encontrado: {video_path}"` (line 29). -/
def notFoundMsg (path : Str) : Str :=
  "Video no encontrado: ".data ++ path

/-- `f"Video demasiado grande: {size:.2f}MB > {max}MB"` (line 37). -/
def sizeLimitMsg (sizeRendered maxRendered : Str) : Str :=
  "Video demasiado grande: ".data ++ sizeRendered ++ "MB > ".data ++
    maxRendered ++ "MB".data

/-- `f"Formato no soportado: {fmt}"` (line 41). -/
def badFormatMsg (fmt : Str) : Str :=
  "Formato no soportado: ".data ++ fmt

/-- What one run of the `try` body of `process_video` produces: the
returned result or the raised error, the stages reached in order, and
the temporary audio paths appended to `self.temp_files` (line 45). -/
structure RunOutcome where
  result : Except Str VideoResult
  trace : List Stage
  registered : List Str
deriving Repr

/-- The `try` body of `process_video` (lines 24-69): existence check,
metadata extraction, size policy, case-insensitive format policy, audio
extraction (whose artifact is registered for cleanup), transcription,
summarization, result assembly and persistence.  Each failing stage
raises, ending the run. -/
def processVideoRun (env : PipelineEnv) : RunOutcome :=
  if env.pathExists = false then
    { result := .error (notFoundMsg env.videoPath)
      trace := [.existenceCheck], registered := [] }
  else
    match env.infoResult with
    | .error e =>
        { result := .error e, trace := [.existenceCheck, .metadata]
          registered := [] }
    | .ok info =>
        if info.size_mb > (env.maxVideoSizeMB : ℚ) then
          { result := .error (sizeLimitMsg env.sizeRendered env.maxRendered)
            trace := [.existenceCheck, .metadata, .sizeCheck]
            registered := [] }
        else if lowerStr info.format ∈ env.supportedFormats.map lowerStr then
          match env.extractResult with
          | .error e =>
              { result := .error e
                trace := [.existenceCheck, .metadata, .sizeCheck,
                          .formatCheck, .audioExtract]
                registered := [] }
          | .ok audioPath =>
              match env.transcribeResult with
              | .error e =>
                  { result := .error e
                    trace := [.existenceCheck, .metadata, .sizeCheck,
                              .formatCheck, .audioExtract, .transcribe]
                    registered := [audioPath] }
              | .ok transcript =>
                  match env.summarizeResult with
                  | .error e =>
                      { result := .error e
                        trace := [.existenceCheck, .metadata, .sizeCheck,
                                  .formatCheck, .audioExtract, .transcribe,
                                  .summarize]
                        registered := [audioPath] }
                  | .ok summary =>
                      match env.saveResult with
                      | .error e =>
                          { result := .error e
                            trace := canonicalStages
                            registered := [audioPath] }
                      | .ok _ =>
                          { result := .ok { videoPath := env.videoPath,
                                            transcript := transcript,
                                            summary := summary }
                            trace := canonicalStages
                            registered := [audioPath] }
        else
          { result := .error (badFormatMsg info.format)
            trace := [.existenceCheck, .metadata, .sizeCheck, .formatCheck]
            registered := [] }

/-- `AudioProcessor.cleanup_temp_files` (`audio_processor.py` lines
111-119): for each listed path, when the file exists `os.remove` is
attempted; the surrounding `except` swallows a removal failure with a
warning only, leaving the file on disk.  The disk is embedded as the set
of existing paths and the success of each `os.remove` call as the
oracle `removeOk`. -/
def cleanupTempFiles (removeOk : Str → Bool) (disk : Finset Str)
    (paths : List Str) : Finset Str :=
  paths.foldl
    (fun d p => if p ∈ d then (if removeOk p then d.erase p else d) else d)
    disk

/-- `process_video` including its `finally` block (lines 71-76): the
`try` body runs, creating the extracted audio artifacts on disk, and
`_cleanup_temp_files` then attempts to remove every registered artifact
unconditionally; `self.temp_files` is reset to `[]`.  Returns the run
outcome, the disk after the call, and the processor's remaining
`temp_files` list. -/
def processVideo (env : PipelineEnv) (removeOk : Str → Bool)
    (disk : Finset Str) : RunOutcome × Finset Str × List Str :=
  let run := processVideoRun env
  (run,
    cleanupTempFiles removeOk (disk ∪ run.registered.toFinset)
      run.registered,
    [])

/-- After `cleanup_temp_files files`, a path whose removal succeeds (or
that was already absent) is not on the disk: later iterations of the
loop never re-create a file. -/
theorem cleanupTempFiles_removes (removeOk : Str → Bool)
    (paths : List Str) :
    ∀ (disk : Finset Str) (p : Str), removeOk p = true →
      p ∈ paths ∨ p ∉ disk → p ∉ cleanupTempFiles removeOk disk paths := by
  induction paths with
  | nil =>
      intro disk p _ h
      rcases h with h | h
      · cases h
      · exact h
  | cons q ps ih =>
      intro disk p hrm h
      show p ∉ cleanupTempFiles removeOk
        (if q ∈ disk then (if removeOk q then disk.erase q else disk)
          else disk) ps
      rcases h with h | h
      · rcases List.mem_cons.mp h with rfl | hp
        · refine ih _ p hrm (Or.inr fun hmem => ?_)
          by_cases hq : p ∈ disk
          · rw [if_pos hq, hrm, if_pos rfl] at hmem
            exact Finset.not_mem_erase p disk hmem
          · rw [if_neg hq] at hmem
            exact hq hmem
        · exact ih _ p hrm (Or.inl hp)
      · refine ih _ p hrm (Or.inr fun hmem => h ?_)
        by_cases hq : q ∈ disk
        · rw [if_pos hq] at hmem
          by_cases hr : removeOk q = true
          · rw [if_pos hr] at hmem
            exact Finset.mem_of_mem_erase hmem
          · rw [if_neg hr] at hmem
            exact hmem
        · rw [if_neg hq] at hmem
          exact hmem

/-- C4 fails as stated: the `finally` cleanup only attempts the deletion.
A fully successful run registers `/tmp/v_audio.wav`, but when the
`os.remove` call fails the `except` of `cleanup_temp_files` swallows the
error and the registered temporary audio file is still on disk after
`process_video` returns. -/
theorem c4_counterexample :
    "/tmp/v_audio.wav".data ∈ (processVideoRun
      { videoPath := "v.mp4".data, pathExists := true,
        infoResult := .ok ⟨30, 25, 640, 480, "mp4".data, 5, true⟩,
        maxVideoSizeMB := 1000, supportedFormats := ["mp4".data],
        extractResult := .ok "/tmp/v_audio.wav".data,
        transcribeResult := .ok "t".data, summarizeResult := .ok "s".data,
        saveResult := .ok "out.txt".data, sizeRendered := "5.00".data,
        maxRendered := "1000".data }).registered ∧
    "/tmp/v_audio.wav".data ∈ (processVideo
      { videoPath := "v.mp4".data, pathExists := true,
        infoResult := .ok ⟨30, 25, 640, 480, "mp4".data, 5, true⟩,
        maxVideoSizeMB := 1000, supportedFormats := ["mp4".data],
        extractResult := .ok "/tmp/v_audio.wav".data,
        transcribeResult := .ok "t".data, summarizeResult := .ok "s".data,
        saveResult := .ok "out.txt".data, sizeRendered := "5.00".data,
        maxRendered := "1000".data } (fun _ => false) ∅).2.1 := by
  constructor <;> decide

/-- C4 (amended): whatever the stage outcomes, the `finally` cleanup runs
before `process_video` returns or re-raises and attempts to delete every
temporary audio artifact registered during the run, resetting the pending
`temp_files` list; every registered artifact whose `os.remove` call
succeeds is absent from the disk afterwards — but a failed removal is
swallowed and that file remains (see the counterexample). -/
theorem c4_cleanup_attempted (env : PipelineEnv) (removeOk : Str → Bool)
    (disk : Finset Str) (p : Str)
    (hp : p ∈ (processVideoRun env).registered)
    (hrm : removeOk p = true) :
    p ∉ (processVideo env removeOk disk).2.1 ∧
      (processVideo env removeOk disk).2.2 = [] :=
  ⟨cleanupTempFiles_removes removeOk _ _ p hrm (Or.inl hp), rfl⟩

/-- A fully successful run registers its audio artifact; when its removal
succeeds the artifact is gone from the disk after the call. -/
theorem c4_cleanup_attempted_witness :
    "/tmp/v_audio.wav".data ∈ (processVideoRun
      { videoPath := "v.mp4".data, pathExists := true,
        infoResult := .ok ⟨30, 25, 640, 480, "mp4".data, 5, true⟩,
        maxVideoSizeMB := 1000, supportedFormats := ["mp4".data],
        extractResult := .ok "/tmp/v_audio.wav".data,
        transcribeResult := .ok "t".data, summarizeResult := .ok "s".data,
        saveResult := .ok "out.txt".data, sizeRendered := "5.00".data,
        maxRendered := "1000".data }).registered ∧
    "/tmp/v_audio.wav".data ∉ (processVideo
      { videoPath := "v.mp4".data, pathExists := true,
        infoResult := .ok ⟨30, 25, 640, 480, "mp4".data, 5, true⟩,
        maxVideoSizeMB := 1000, supportedFormats := ["mp4".data],
        extractResult := .ok "/tmp/v_audio.wav".data,
        transcribeResult := .ok "t".data, summarizeResult := .ok "s".data,
        saveResult := .ok "out.txt".data, sizeRendered := "5.00".data,
        maxRendered := "1000".data } (fun _ => true) ∅).2.1 :=
  ⟨by decide, (c4_cleanup_attempted _ (fun _ => true) ∅ _ (by decide) rfl).1⟩

/-- C6: the single-video orchestrator runs its stages in the fixed order
existence check, metadata, size policy, case-insensitive format policy,
audio extraction, transcription, summarization, persistence (every
executed trace is an initial segment of that order), and the two policy
checks are abort points: an oversized video fails with the size-limit
error and a video with an unsupported extension fails with the
format error, in both cases before any audio extraction is attempted. -/
theorem c6_stage_order_and_aborts (env : PipelineEnv) :
    (∃ r, (processVideoRun env).trace ++ r = canonicalStages) ∧
    (∀ info, env.pathExists = true → env.infoResult = .ok info →
      info.size_mb > (env.maxVideoSizeMB : ℚ) →
      (processVideoRun env).result =
          .error (sizeLimitMsg env.sizeRendered env.maxRendered) ∧
        Stage.audioExtract ∉ (processVideoRun env).trace) ∧
    (∀ info, env.pathExists = true → env.infoResult = .ok info →
      ¬ info.size_mb > (env.maxVideoSizeMB : ℚ) →
      lowerStr info.format ∉ env.supportedFormats.map lowerStr →
      (processVideoRun env).result = .error (badFormatMsg info.format) ∧
        Stage.audioExtract ∉ (processVideoRun env).trace) := by
  refine ⟨?_, ?_, ?_⟩
  · unfold processVideoRun
    repeat' split
    all_goals exact ⟨_, rfl⟩
  · intro info hex hinfo hsize
    simp only [processVideoRun, hex, Bool.true_eq_false, if_false, hinfo,
      if_pos hsize]
    exact ⟨by trivial, by decide⟩
  · intro info hex hinfo hsize hfmt
    simp only [processVideoRun, hex, Bool.true_eq_false, if_false, hinfo,
      if_neg hsize, if_neg hfmt]
    exact ⟨by trivial, by decide⟩

/-- Concrete instance of C6 with an oversized mp4: the run aborts with the
size-limit error and never reaches audio extraction. -/
theorem c6_stage_order_and_aborts_witness :
    (∃ r, (processVideoRun
      { videoPath := "big.mp4".data, pathExists := true,
        infoResult := .ok ⟨30, 25, 640, 480, "mp4".data, 1500, true⟩,
        maxVideoSizeMB := 1000, supportedFormats := ["mp4".data],
        extractResult := .ok "/tmp/big_audio.wav".data,
        transcribeResult := .ok "t".data, summarizeResult := .ok "s".data,
        saveResult := .ok "out.txt".data, sizeRendered := "1500.00".data,
        maxRendered := "1000".data }).trace ++ r = canonicalStages) ∧
    ((processVideoRun
      { videoPath := "big.mp4".data, pathExists := true,
        infoResult := .ok ⟨30, 25, 640, 480, "mp4".data, 1500, true⟩,
        maxVideoSizeMB := 1000, supportedFormats := ["mp4".data],
        extractResult := .ok "/tmp/big_audio.wav".data,
        transcribeResult := .ok "t".data, summarizeResult := .ok "s".data,
        saveResult := .ok "out.txt".data, sizeRendered := "1500.00".data,
        maxRendered := "1000".data }).result =
        .error (sizeLimitMsg "1500.00".data "1000".data) ∧
      Stage.audioExtract ∉ (processVideoRun
      { videoPath := "big.mp4".data, pathExists := true,
        infoResult := .ok ⟨30, 25, 640, 480, "mp4".data, 1500, true⟩,
        maxVideoSizeMB := 1000, supportedFormats := ["mp4".data],
        extractResult := .ok "/tmp/big_audio.wav".data,
        transcribeResult := .ok "t".data, summarizeResult := .ok "s".data,
        saveResult := .ok "out.txt".data, sizeRendered := "1500.00".data,
        maxRendered := "1000".data }).trace) :=
  ⟨(c6_stage_order_and_aborts _).1,
    (c6_stage_order_and_aborts _).2.1 _ rfl rfl (by norm_num)⟩

/-- `process_video_task` (`main.py` lines 307-336): runs the orchestrator
and applies exactly one terminal update to the task record — the success
update when `process_video` returns, the error update with the stringified
cause when it raises.  The function is total: the `except` clause is the
outermost boundary and no exception escapes the background worker (the
callback sender catches its own failures and never affects the record). -/
def processVideoTask (rec : TaskRecord) (env : PipelineEnv) (t : DateTime) :
    TaskRecord :=
  match (processVideoRun env).result with
  | .ok r => completeVideoTask rec r t
  | .error e => errorVideoTask rec e t

/-- C3: when any pipeline stage of a single-video submission raises, the
background worker leaves the task with status `error`, the stringified
cause as its only error entry, an empty result list (no partial result),
and a completion timestamp; the worker itself never throws (it is a total
function of the run outcome). -/
theorem c3_single_video_error_path (start t : DateTime) (env : PipelineEnv)
    (e : Str) (h : (processVideoRun env).result = .error e) :
    (processVideoTask (initTask start) env t).status = "error".data ∧
      (processVideoTask (initTask start) env t).errors = [e] ∧
      (processVideoTask (initTask start) env t).results = [] ∧
      (processVideoTask (initTask start) env t).completedAt =
        some (isoformat t) := by
  simp [processVideoTask, h, errorVideoTask, initTask]

/-- Concrete instance of C3: a submission whose path does not exist ends as
an `error` task with the not-found cause recorded and no results. -/
theorem c3_single_video_error_path_witness :
    (processVideoTask (initTask ⟨2024, 1, 2, 3, 4, 5, 6⟩)
        { videoPath := "missing.mp4".data, pathExists := false,
          infoResult := .error "e".data, maxVideoSizeMB := 1000,
          supportedFormats := ["mp4".data],
          extractResult := .error "e".data,
          transcribeResult := .error "e".data,
          summarizeResult := .error "e".data,
          saveResult := .error "e".data, sizeRendered := "0.00".data,
          maxRendered := "1000".data } ⟨2024, 1, 2, 3, 4, 6, 0⟩).status =
        "error".data ∧
      (processVideoTask (initTask ⟨2024, 1, 2, 3, 4, 5, 6⟩)
        { videoPath := "missing.mp4".data, pathExists := false,
          infoResult := .error "e".data, maxVideoSizeMB := 1000,
          supportedFormats := ["mp4".data],
          extractResult := .error "e".data,
          transcribeResult := .error "e".data,
          summarizeResult := .error "e".data,
          saveResult := .error "e".data, sizeRendered := "0.00".data,
          maxRendered := "1000".data } ⟨2024, 1, 2, 3, 4, 6, 0⟩).errors =
        [notFoundMsg "missing.mp4".data] ∧
      (processVideoTask (initTask ⟨2024, 1, 2, 3, 4, 5, 6⟩)
        { videoPath := "missing.mp4".data, pathExists := false,
          infoResult := .error "e".data, maxVideoSizeMB := 1000,
          supportedFormats := ["mp4".data],
          extractResult := .error "e".data,
          transcribeResult := .error "e".data,
          summarizeResult := .error "e".data,
          saveResult := .error "e".data, sizeRendered := "0.00".data,
          maxRendered := "1000".data } ⟨2024, 1, 2, 3, 4, 6, 0⟩).results =
        [] ∧
      (processVideoTask (initTask ⟨2024, 1, 2, 3, 4, 5, 6⟩)
        { videoPath := "missing.mp4".data, pathExists := false,
          infoResult := .error "e".data, maxVideoSizeMB := 1000,
          supportedFormats := ["mp4".data],
          extractResult := .error "e".data,
          transcribeResult := .error "e".data,
          summarizeResult := .error "e".data,
          saveResult := .error "e".data, sizeRendered := "0.00".data,
          maxRendered := "1000".data } ⟨2024, 1, 2, 3, 4, 6, 0⟩).completedAt =
        some (isoformat ⟨2024, 1, 2, 3, 4, 6, 0⟩) :=
  c3_single_video_error_path ⟨2024, 1, 2, 3, 4, 5, 6⟩ ⟨2024, 1, 2, 3, 4, 6, 0⟩
    _ (notFoundMsg "missing.mp4".data) rfl

/-! ## Folder processing (`VideoProcessor.process_folder`,
`video_processor.py` lines 149-190, and `process_folder_task`,
`main.py` lines 338-367) -/

/-- `Path(file).suffix.lower()[1:]`: the characters after the last dot of
the filename (empty when there is no dot, or when the only dot is the
leading character), lowercased by the caller. -/
def extAfterLastDot (f : Str) : Str :=
  match f.reverse.findIdx? (fun c => c == '.') with
  | none => []
  | some j => if f.length - 1 - j > 0 then f.drop (f.length - j) else []

/-- `os.path.join(folder, name)` for a relative `name`. -/
def joinPath (folder name : Str) : Str := folder ++ ['/'] ++ name

/-- The `video_files` list built in `process_folder` (lines 161-167):
regular files of the listing whose lowercased extension is in the
lowercased allow-list, as full paths. -/
def folderVideoFiles (folder : Str) (listing : List (Str × Bool))
    (supported : List Str) : List Str :=
  (listing.filter fun e =>
      e.2 && decide (lowerStr (extAfterLastDot e.1) ∈ supported.map lowerStr)
    ).map fun e => joinPath folder e.1

/-- The per-video loop of `process_folder` (lines 176-186): each matching
file goes through `process_video`; a success is appended to `results`, a
failure is logged and skipped — it is recorded nowhere. -/
def processFolderRun (folder : Str) (listing : List (Str × Bool))
    (supported : List Str) (envOf : Str → PipelineEnv) : List VideoResult :=
  (folderVideoFiles folder listing supported).filterMap fun p =>
    ((processVideoRun (envOf p)).result).toOption

/-- Whether `process_video` succeeds on path `p` under environment
`envOf p`. -/
def videoSucceeds (envOf : Str → PipelineEnv) (p : Str) : Bool :=
  match (processVideoRun (envOf p)).result with
  | .ok _ => true
  | .error _ => false

/-- `process_folder_task` (`main.py` lines 338-367): when the folder walk
itself raises (embedded as the `listing` argument being an error) the task
is marked `error`; otherwise the task is marked `completed` with whatever
`process_folder` returned — the record's error list is never touched on
that path. -/
def processFolderTask (rec : TaskRecord)
    (listing : Except Str (List (Str × Bool))) (folder : Str)
    (supported : List Str) (envOf : Str → PipelineEnv) (t : DateTime) :
    TaskRecord :=
  match listing with
  | .error e => errorVideoTask rec e t
  | .ok l => completeFolderTask rec (processFolderRun folder l supported envOf) t

/-- `filterMap` keeps exactly the elements on which the function is
defined. -/
theorem length_filterMap_countP {α β : Type} (f : α → Option β)
    (l : List α) :
    (l.filterMap f).length = l.countP (fun a => (f a).isSome) := by
  induction l with
  | nil => rfl
  | cons x xs ih =>
      cases hx : f x <;>
        simp [List.filterMap_cons, List.countP_cons, hx, ih]

/-- The results list collects exactly the successful videos: its length is
the number of matching files on which `process_video` succeeds. -/
theorem processFolderRun_length (folder : Str) (listing : List (Str × Bool))
    (supported : List Str) (envOf : Str → PipelineEnv) :
    (processFolderRun folder listing supported envOf).length =
      (folderVideoFiles folder listing supported).countP
        (videoSucceeds envOf) := by
  unfold processFolderRun
  rw [length_filterMap_countP]
  refine List.countP_congr fun p _ => ?_
  unfold videoSucceeds
  cases (processVideoRun (envOf p)).result <;> rfl

/-- C1 (amended): for a folder submission whose directory walk succeeds,
the task ends `completed` with a result list whose length is exactly the
number N of matching videos that process successfully — but the task's
error list is left empty no matter how many videos fail: per-video
failures are only logged, never recorded in the task record. -/
theorem c1_amended_folder_partial_failure (start t : DateTime)
    (listing : List (Str × Bool)) (folder : Str) (supported : List Str)
    (envOf : Str → PipelineEnv) :
    ((processFolderTask (initTask start) (.ok listing) folder supported
        envOf t).results.length =
      (folderVideoFiles folder listing supported).countP
        (videoSucceeds envOf)) ∧
    (processFolderTask (initTask start) (.ok listing) folder supported
        envOf t).errors = [] ∧
    (processFolderTask (initTask start) (.ok listing) folder supported
        envOf t).status = "completed".data := by
  refine ⟨?_, rfl, rfl⟩
  simpa [processFolderTask, completeFolderTask] using
    processFolderRun_length folder listing supported envOf

/-- C1 fails as stated: a folder with one video that processes successfully
(N = 1) and one that fails a pipeline stage (M = 1) ends with an error
list of length 0, not ≥ M.  The failing video is picked up by the
extension filter and its run errors, yet the task's error list is empty
(while the result list does have length N and the status is `completed`,
the error-list clause of the claim is violated). -/
theorem c1_counterexample :
    (folderVideoFiles "videos".data
        [("a.mp4".data, true), ("b.mp4".data, true)] ["mp4".data]).length
      = 2 ∧
    videoSucceeds
      (fun p =>
        { videoPath := p,
          pathExists := p = joinPath "videos".data "a.mp4".data,
          infoResult := .ok ⟨30, 25, 640, 480, "mp4".data, 5, true⟩,
          maxVideoSizeMB := 1000, supportedFormats := ["mp4".data],
          extractResult := .ok ("/tmp/a_audio.wav".data),
          transcribeResult := .ok "t".data, summarizeResult := .ok "s".data,
          saveResult := .ok "out.txt".data, sizeRendered := "5.00".data,
          maxRendered := "1000".data })
      (joinPath "videos".data "a.mp4".data) = true ∧
    videoSucceeds
      (fun p =>
        { videoPath := p,
          pathExists := p = joinPath "videos".data "a.mp4".data,
          infoResult := .ok ⟨30, 25, 640, 480, "mp4".data, 5, true⟩,
          maxVideoSizeMB := 1000, supportedFormats := ["mp4".data],
          extractResult := .ok ("/tmp/a_audio.wav".data),
          transcribeResult := .ok "t".data, summarizeResult := .ok "s".data,
          saveResult := .ok "out.txt".data, sizeRendered := "5.00".data,
          maxRendered := "1000".data })
      (joinPath "videos".data "b.mp4".data) = false ∧
    (processFolderTask (initTask ⟨2024, 1, 2, 3, 4, 5, 6⟩)
        (.ok [("a.mp4".data, true), ("b.mp4".data, true)]) "videos".data
        ["mp4".data]
        (fun p =>
          { videoPath := p,
            pathExists := p = joinPath "videos".data "a.mp4".data,
            infoResult := .ok ⟨30, 25, 640, 480, "mp4".data, 5, true⟩,
            maxVideoSizeMB := 1000, supportedFormats := ["mp4".data],
            extractResult := .ok ("/tmp/a_audio.wav".data),
            transcribeResult := .ok "t".data, summarizeResult := .ok "s".data,
            saveResult := .ok "out.txt".data, sizeRendered := "5.00".data,
            maxRendered := "1000".data })
        ⟨2024, 1, 2, 3, 4, 6, 0⟩).results.length = 1 ∧
    ¬ (1 ≤ (processFolderTask (initTask ⟨2024, 1, 2, 3, 4, 5, 6⟩)
        (.ok [("a.mp4".data, true), ("b.mp4".data, true)]) "videos".data
        ["mp4".data]
        (fun p =>
          { videoPath := p,
            pathExists := p = joinPath "videos".data "a.mp4".data,
            infoResult := .ok ⟨30, 25, 640, 480, "mp4".data, 5, true⟩,
            maxVideoSizeMB := 1000, supportedFormats := ["mp4".data],
            extractResult := .ok ("/tmp/a_audio.wav".data),
            transcribeResult := .ok "t".data, summarizeResult := .ok "s".data,
            saveResult := .ok "out.txt".data, sizeRendered := "5.00".data,
            maxRendered := "1000".data })
        ⟨2024, 1, 2, 3, 4, 6, 0⟩).errors.length) := by
  refine ⟨by decide, ?_, ?_, ?_, by decide⟩ <;> decide

/-! ## Task-identifier uniqueness (`main.py` line 109) -/

/-- `Nat.digitChar` is injective on single digits. -/
theorem digitChar_inj_lt10 (a b : Nat) (ha : a < 10) (hb : b < 10)
    (h : Nat.digitChar a = Nat.digitChar b) : a = b := by
  interval_cases a <;> interval_cases b <;> simp_all [Nat.digitChar]

/-- Equal digit characters of residues give equal residues. -/
theorem digitChar_mod_inj {a b : Nat}
    (h : Nat.digitChar (a % 10) = Nat.digitChar (b % 10)) : a % 10 = b % 10 :=
  digitChar_inj_lt10 _ _ (Nat.mod_lt _ (by omega)) (Nat.mod_lt _ (by omega)) h

/-- The `%Y%m%d_%H%M%S_%f` rendering is injective on valid datetimes: the
fields are zero-padded into fixed positions, so equal renderings force
equal fields. -/
theorem strftimeId_inj {t₁ t₂ : DateTime} (h₁ : t₁.Valid) (h₂ : t₂.Valid)
    (h : strftimeId t₁ = strftimeId t₂) : t₁ = t₂ := by
  obtain ⟨y₁, mo₁, d₁, hh₁, mi₁, s₁, us₁⟩ := t₁
  obtain ⟨y₂, mo₂, d₂, hh₂, mi₂, s₂, us₂⟩ := t₂
  obtain ⟨hy₁, hmo₁, hd₁, hhh₁, hmi₁, hs₁, hus₁⟩ := h₁
  obtain ⟨hy₂, hmo₂, hd₂, hhh₂, hmi₂, hs₂, hus₂⟩ := h₂
  dsimp only at hy₁ hmo₁ hd₁ hhh₁ hmi₁ hs₁ hus₁ hy₂ hmo₂ hd₂ hhh₂ hmi₂ hs₂ hus₂
  simp only [strftimeId, pad4, pad2, pad6, List.cons_append, List.nil_append,
    List.cons.injEq, and_true] at h
  simp only [DateTime.mk.injEq]
  obtain ⟨a1, a2, a3, a4, b1, b2, c1, c2, -, d1e, d2e, e1, e2, f1, f2, -,
    g1, g2, g3, g4, g5, g6⟩ := h
  refine ⟨?_, ?_, ?_, ?_, ?_, ?_, ?_⟩
  · have := digitChar_mod_inj a1
    have := digitChar_mod_inj a2
    have := digitChar_mod_inj a3
    have := digitChar_mod_inj a4
    omega
  · have := digitChar_mod_inj b1
    have := digitChar_mod_inj b2
    omega
  · have := digitChar_mod_inj c1
    have := digitChar_mod_inj c2
    omega
  · have := digitChar_mod_inj d1e
    have := digitChar_mod_inj d2e
    omega
  · have := digitChar_mod_inj e1
    have := digitChar_mod_inj e2
    omega
  · have := digitChar_mod_inj f1
    have := digitChar_mod_inj f2
    omega
  · have := digitChar_mod_inj g1
    have := digitChar_mod_inj g2
    have := digitChar_mod_inj g3
    have := digitChar_mod_inj g4
    have := digitChar_mod_inj g5
    have := digitChar_mod_inj g6
    omega

/-- C8 fails as stated: two distinct submissions made at the very same
microsecond (hence within the same millisecond) receive the identical
task identifier — the identifier depends only on the clock reading, so
the required distinctness does not hold. -/
theorem c8_counterexample :
    ("a.mp4".data : Str) ≠ "b.mp4".data ∧
      submissionTaskId "a.mp4".data ⟨2024, 5, 6, 7, 8, 9, 123456⟩ =
        submissionTaskId "b.mp4".data ⟨2024, 5, 6, 7, 8, 9, 123456⟩ :=
  ⟨by decide, rfl⟩

/-- C8 (amended): two submissions collide exactly when their submission
clock readings agree to the microsecond; whenever the microsecond
timestamps differ — including two submissions within the same
millisecond — the identifiers are distinct, whatever the payloads. -/
theorem c8_taskid_collision_iff (req₁ req₂ : Str) (t₁ t₂ : DateTime)
    (h₁ : t₁.Valid) (h₂ : t₂.Valid) :
    submissionTaskId req₁ t₁ = submissionTaskId req₂ t₂ ↔ t₁ = t₂ := by
  constructor
  · intro h
    unfold submissionTaskId videoTaskId at h
    exact strftimeId_inj h₁ h₂ (List.append_cancel_left h)
  · rintro rfl
    rfl

/-- Two submissions one microsecond apart inside the same millisecond get
distinct identifiers. -/
theorem c8_taskid_collision_iff_witness :
    DateTime.Valid ⟨2024, 5, 6, 7, 8, 9, 123000⟩ ∧
    DateTime.Valid ⟨2024, 5, 6, 7, 8, 9, 123001⟩ ∧
    submissionTaskId "a.mp4".data ⟨2024, 5, 6, 7, 8, 9, 123000⟩ ≠
      submissionTaskId "b.mp4".data ⟨2024, 5, 6, 7, 8, 9, 123001⟩ :=
  ⟨by decide, by decide, fun h =>
    absurd ((c8_taskid_collision_iff "a.mp4".data "b.mp4".data _ _
      (by decide) (by decide)).mp h) (by decide)⟩

/-! ## Audio extraction (`AudioProcessor.extract_audio_from_video`,
`audio_processor.py` lines 37-69) -/

/-- `os.path.basename`: the part after the last path separator. -/
def baseName (f : Str) : Str :=
  (f.reverse.takeWhile (fun c => c != '/')).reverse

/-- `os.path.splitext(...)[0]`: the name with its extension removed
(no change when there is no dot, or when the only dot leads). -/
def rootBeforeLastDot (f : Str) : Str :=
  match f.reverse.findIdx? (fun c => c == '.') with
  | none => f
  | some j => if f.length - 1 - j > 0 then f.take (f.length - 1 - j) else f

/-- The deterministic temporary output path of lines 42-44:
`os.path.join(temp_dir, f"{video_name}_audio.wav")`. -/
def audioOutputPath (tempDir videoPath : Str) : Str :=
  joinPath tempDir (rootBeforeLastDot (baseName videoPath) ++ "_audio.wav".data)

/-- Environment of one `extract_audio_from_video(video_path)` call: the
outcomes of the decoder open (`VideoFileClip`), the audio-stream test
(`video.audio is None`), and the audio write (`write_audiofile`), with
the error texts of the two fallible external calls. -/
structure ExtractEnv where
  videoPath : Str
  tempDir : Str
  openOk : Bool
  openErr : Str
  hasAudio : Bool
  writeOk : Bool
  writeErr : Str

/-- What one `extract_audio_from_video` call leaves behind: the returned
audio path or raised error, and the count of decoder resources (the
`VideoFileClip` reader and its audio sub-reader) acquired but not closed
when the call exits.  Lines 49-62 of the source close the readers only
on the all-success path: the `ValueError("El video no contiene audio")`
raise and a `write_audiofile` failure both skip `video.close()` /
`audio.close()`. -/
structure ExtractOutcome where
  result : Except Str Str
  openDecoders : Nat
deriving Repr

/-- `extract_audio_from_video` (lines 37-69): derive the temporary path,
open the decoder, take the audio stream (raising when absent), write the
audio file, then close both readers and return the path.  The `except`
clause only logs and re-raises. -/
def extractAudioFromVideo (env : ExtractEnv) : ExtractOutcome :=
  if env.openOk = false then
    { result := .error env.openErr, openDecoders := 0 }
  else if env.hasAudio = false then
    { result := .error "El video no contiene audio".data, openDecoders := 1 }
  else if env.writeOk = false then
    { result := .error env.writeErr, openDecoders := 2 }
  else
    { result := .ok (audioOutputPath env.tempDir env.videoPath)
      openDecoders := 0 }

/-- C7 fails as stated: on the no-audio-stream exit path the decoder is
not released — the call raises the no-audio error while one decoder
resource (the `VideoFileClip` opened at line 49) is still open, because
the `raise` at line 55 happens before `video.close()` at line 61 and no
`finally` intervenes. -/
theorem c7_counterexample :
    (extractAudioFromVideo
      { videoPath := "v.mp4".data, tempDir := "/tmp".data, openOk := true,
        openErr := [], hasAudio := false, writeOk := true,
        writeErr := [] }).result =
        .error "El video no contiene audio".data ∧
    (extractAudioFromVideo
      { videoPath := "v.mp4".data, tempDir := "/tmp".data, openOk := true,
        openErr := [], hasAudio := false, writeOk := true,
        writeErr := [] }).openDecoders ≠ 0 :=
  ⟨rfl, by decide⟩

/-- C7 (amended): on a successful extraction every decoder resource is
released before the call returns, and the returned path is the
deterministic temporary path derived from the video's base name; but on
the no-audio failure the call raises the no-audio error with the decoder
still open, and on a write failure both readers stay open. -/
theorem c7_extract_audio_release (env : ExtractEnv)
    (hopen : env.openOk = true) :
    (env.hasAudio = true → env.writeOk = true →
      (extractAudioFromVideo env).result =
          .ok (audioOutputPath env.tempDir env.videoPath) ∧
        (extractAudioFromVideo env).openDecoders = 0) ∧
    (env.hasAudio = false →
      (extractAudioFromVideo env).result =
          .error "El video no contiene audio".data ∧
        (extractAudioFromVideo env).openDecoders = 1) ∧
    (env.hasAudio = true → env.writeOk = false →
      (extractAudioFromVideo env).result = .error env.writeErr ∧
        (extractAudioFromVideo env).openDecoders = 2) := by
  refine ⟨fun ha hw => ?_, fun ha => ?_, fun ha hw => ?_⟩ <;>
    simp_all [extractAudioFromVideo]

/-- Concrete instance of the amended C7: a fully successful extraction of
`clips/v.mp4` returns `/tmp/v_audio.wav` with no decoder left open. -/
theorem c7_extract_audio_release_witness :
    (extractAudioFromVideo
      { videoPath := "clips/v.mp4".data, tempDir := "/tmp".data,
        openOk := true, openErr := [], hasAudio := true, writeOk := true,
        writeErr := [] }).result = .ok "/tmp/v_audio.wav".data ∧
    (extractAudioFromVideo
      { videoPath := "clips/v.mp4".data, tempDir := "/tmp".data,
        openOk := true, openErr := [], hasAudio := true, writeOk := true,
        writeErr := [] }).openDecoders = 0 := by
  have h := (c7_extract_audio_release
    { videoPath := "clips/v.mp4".data, tempDir := "/tmp".data,
      openOk := true, openErr := [], hasAudio := true, writeOk := true,
      writeErr := [] } rfl).1 rfl rfl
  exact ⟨by rw [h.1]; rfl, h.2⟩

/-! ## Persisted summary formatting
(`VideoProcessor._format_summary_content`, `video_processor.py`
lines 113-141, written to disk by `_save_result`, lines 90-107) -/

/-- Python `str.strip()` whitespace test. -/
def isPySpace (c : Char) : Bool :=
  c == ' ' || c == '\t' || c == '\n' || c == '\r' || c == '\x0b' || c == '\x0c'

/-- Python `str.strip()`: drop whitespace from both ends. -/
def pyStrip (s : Str) : Str :=
  ((s.dropWhile isPySpace).reverse.dropWhile isPySpace).reverse

/-- `'-'*30`, the section underline of the template. -/
def dashLine : Str := List.replicate 30 '-'

/-- `'='*50`, the frame line of the template. -/
def eqLine : Str := List.replicate 50 '='

/-- The template text from the start of the summary file through the
transcript section underline (lines 116-132), with the rendered
video-info and configuration values as parameters (`fmtU`, `provU`,
`modelU` are the upper-cased fields; `dur`, `size` the `:.2f`
renderings; `w`, `h`, `fps` the displayed numbers). -/
def summaryHeader (fmtU dur size w h fps provU modelU processedAt : Str) :
    Str :=
  "RESUMEN DE VIDEO\n".data ++ eqLine ++
    "\n\nINFORMACIÓN DEL VIDEO:\n- Archivo: ".data ++ fmtU ++
    "\n- Duración: ".data ++ dur ++ " segundos\n- Tamaño: ".data ++ size ++
    " MB\n- Resolución: ".data ++ w ++ "x".data ++ h ++
    "\n- FPS: ".data ++ fps ++
    "\n\nCONFIGURACIÓN:\n- Proveedor de IA: ".data ++ provU ++
    "\n- Modelo de transcripción: ".data ++ modelU ++
    "\n- Procesado el: ".data ++ processedAt ++
    "\n\nTRANSCRIPCIÓN COMPLETA:\n".data ++ dashLine ++ "\n".data

/-- The template text separating the transcript from the summary
(lines 133-136). -/
def summaryDelim : Str :=
  "\n\nRESUMEN GENERADO:\n".data ++ dashLine ++ "\n".data

/-- The template text after the summary (lines 137-139, before the final
newline and closing indentation). -/
def summaryFooter : Str := "\n\n".data ++ eqLine

/-- The f-string of lines 115-140 before `.strip()`: a leading newline,
the header, the transcript, the delimiter, the summary, the footer, and
the trailing newline plus the 8-space indentation of the closing
quotes. -/
def rawSummaryContent (hdr transcript summary : Str) : Str :=
  '\n' :: (hdr ++ (transcript ++ (summaryDelim ++ (summary ++
    (summaryFooter ++ ('\n' :: List.replicate 8 ' '))))))

/-- The same content with the whitespace that `.strip()` removes (the
leading newline and trailing newline-plus-indentation) absent. -/
def strippedSummaryContent (hdr transcript summary : Str) : Str :=
  hdr ++ (transcript ++ (summaryDelim ++ (summary ++ summaryFooter)))

/-- `_format_summary_content` (lines 113-141): the filled template,
stripped. -/
def formatSummaryContent (fmtU dur size w h fps provU modelU processedAt
    transcript summary : Str) : Str :=
  pyStrip (rawSummaryContent
    (summaryHeader fmtU dur size w h fps provU modelU processedAt)
    transcript summary)

/-- Dropping a satisfying run at the head of an append. -/
theorem dropWhile_all_append (p : Char → Bool) (l₁ l₂ : Str)
    (h : ∀ c ∈ l₁, p c = true) :
    (l₁ ++ l₂).dropWhile p = l₂.dropWhile p := by
  induction l₁ with
  | nil => rfl
  | cons x xs ih =>
      rw [List.cons_append, List.dropWhile_cons, h x (List.mem_cons_self x xs)]
      exact ih fun c hc => h c (List.mem_cons_of_mem x hc)

/-- `strip` of the template removes exactly the leading newline and the
trailing newline-plus-indentation when the enclosed text starts with `R`
and ends with `=` (as the template always does). -/
theorem pyStrip_sandwich (X : Str) (tl tl₂ : Str) (htl : X = 'R' :: tl)
    (htl₂ : X.reverse = '=' :: tl₂) :
    pyStrip ('\n' :: (X ++ ('\n' :: List.replicate 8 ' '))) = X := by
  unfold pyStrip
  have h1 : List.dropWhile isPySpace
      ('\n' :: (X ++ ('\n' :: List.replicate 8 ' '))) =
      X ++ ('\n' :: List.replicate 8 ' ') := by
    rw [List.dropWhile_cons, htl, List.cons_append, List.dropWhile_cons]
    simp [isPySpace]
  rw [h1]
  have h2 : (X ++ ('\n' :: List.replicate 8 ' ')).reverse =
      List.replicate 8 ' ' ++ (['\n'] ++ X.reverse) := by
    rw [List.reverse_append, List.reverse_cons, List.reverse_replicate,
      List.append_assoc]
  rw [h2]
  rw [dropWhile_all_append _ _ _ (by
    intro c hc
    rcases List.mem_replicate.mp hc with ⟨-, rfl⟩
    rfl)]
  rw [dropWhile_all_append _ _ _ (by
    intro c hc
    rcases List.mem_singleton.mp hc with rfl
    rfl)]
  rw [htl₂, List.dropWhile_cons]
  simp [isPySpace, ← htl₂]

set_option maxRecDepth 4000

/-- The formatted file content is the header, transcript, delimiter,
summary and footer in sequence: `.strip()` only removes the whitespace
the template itself added at the two ends. -/
theorem formatSummaryContent_eq_stripped (fmtU dur size w h fps provU modelU
    processedAt transcript summary : Str) :
    formatSummaryContent fmtU dur size w h fps provU modelU processedAt
        transcript summary =
      strippedSummaryContent
        (summaryHeader fmtU dur size w h fps provU modelU processedAt)
        transcript summary := by
  have hraw : rawSummaryContent
      (summaryHeader fmtU dur size w h fps provU modelU processedAt)
      transcript summary =
      '\n' :: (strippedSummaryContent
        (summaryHeader fmtU dur size w h fps provU modelU processedAt)
        transcript summary ++ ('\n' :: List.replicate 8 ' ')) := by
    simp only [rawSummaryContent, strippedSummaryContent,
      List.append_assoc]
  have hcons : ∃ tl, strippedSummaryContent
      (summaryHeader fmtU dur size w h fps provU modelU processedAt)
      transcript summary = 'R' :: tl := by
    rw [strippedSummaryContent, summaryHeader,
      show ("RESUMEN DE VIDEO\n".data : Str) =
        'R' :: "ESUMEN DE VIDEO\n".data from rfl]
    simp only [List.cons_append, List.append_assoc]
    exact ⟨_, rfl⟩
  have hrev : ∃ tl, (strippedSummaryContent
      (summaryHeader fmtU dur size w h fps provU modelU processedAt)
      transcript summary).reverse = '=' :: tl := by
    rw [strippedSummaryContent, summaryFooter, eqLine,
      show (List.replicate 50 '=') =
        (List.replicate 49 '=' ++ ['=']) from by rw [← List.replicate_succ']]
    simp only [List.reverse_append, List.reverse_cons, List.append_assoc,
      List.reverse_nil, List.nil_append, List.singleton_append,
      List.cons_append]
    exact ⟨_, rfl⟩
  obtain ⟨tl, htl⟩ := hcons
  obtain ⟨tl₂, htl₂⟩ := hrev
  rw [formatSummaryContent, hraw, pyStrip_sandwich _ tl tl₂ htl htl₂]

/-- C9 fails as stated: the formatting of (transcript, summary) into the
summary file is not jointly injective, so no parser can reconstruct both
fields from the file.  A transcript that itself contains the
summary-section delimiter produces the very same file as a shorter
transcript with the overflow moved into the summary: the two distinct
pairs ("A" ++ delimiter ++ "B", "C") and ("A", "B" ++ delimiter ++ "C")
format identically. -/
theorem c9_counterexample :
    ((("A".data ++ summaryDelim ++ "B".data : Str), ("C".data : Str)) ≠
      (("A".data : Str), ("B".data ++ summaryDelim ++ "C".data : Str))) ∧
    formatSummaryContent "MP4".data "30.00".data "5.00".data "640".data
        "480".data "25".data "OPENAI".data "WHISPER".data
        "2024-01-01T00:00:00".data
        ("A".data ++ summaryDelim ++ "B".data) "C".data =
      formatSummaryContent "MP4".data "30.00".data "5.00".data "640".data
        "480".data "25".data "OPENAI".data "WHISPER".data
        "2024-01-01T00:00:00".data
        "A".data ("B".data ++ summaryDelim ++ "C".data) := by
  constructor
  · intro hEq
    have hfst := congrArg Prod.fst hEq
    simp only at hfst
    have hlen := congrArg List.length hfst
    simp [summaryDelim, dashLine] at hlen
  · rw [formatSummaryContent_eq_stripped, formatSummaryContent_eq_stripped]
    unfold strippedSummaryContent
    simp only [List.append_assoc]

/-- C9 (amended): the formatting step is injective in the transcript for
any fixed summary and metadata, and injective in the summary for any
fixed transcript and metadata — each field alone is recoverable from the
file — but joint injectivity of the pair fails (see the
counterexample). -/
theorem c9_field_injective (fmtU dur size w h fps provU modelU processedAt
    t t' s s' : Str) :
    (formatSummaryContent fmtU dur size w h fps provU modelU processedAt
        t s = formatSummaryContent fmtU dur size w h fps provU modelU
        processedAt t' s → t = t') ∧
    (formatSummaryContent fmtU dur size w h fps provU modelU processedAt
        t s = formatSummaryContent fmtU dur size w h fps provU modelU
        processedAt t s' → s = s') := by
  constructor
  · intro hEq
    rw [formatSummaryContent_eq_stripped, formatSummaryContent_eq_stripped]
      at hEq
    unfold strippedSummaryContent at hEq
    exact List.append_cancel_right (List.append_cancel_left hEq)
  · intro hEq
    rw [formatSummaryContent_eq_stripped, formatSummaryContent_eq_stripped]
      at hEq
    unfold strippedSummaryContent at hEq
    exact List.append_cancel_right
      (List.append_cancel_left
        (List.append_cancel_left (List.append_cancel_left hEq)))

/-- Concrete instance of the amended C9 at a fixed metadata block. -/
theorem c9_field_injective_witness :
    ("T".data : Str) = "T".data ∧ ("S".data : Str) = "S".data :=
  ⟨(c9_field_injective "MP4".data "30.00".data "5.00".data "640".data
      "480".data "25".data "OPENAI".data "WHISPER".data
      "2024-01-01T00:00:00".data "T".data "T".data "S".data "S".data).1 rfl,
   (c9_field_injective "MP4".data "30.00".data "5.00".data "640".data
      "480".data "25".data "OPENAI".data "WHISPER".data
      "2024-01-01T00:00:00".data "T".data "T".data "S".data "S".data).2 rfl⟩
